import Mathlib

/-!
Verification development for the gemura backend (hospital meal-service
record keeping).  The definitions below shallowly embed the aggregation,
week-bucketing and CRUD-guard logic of `src/backend/app` in Lean:

* Python `float` money values are modelled as exact rationals (`ℚ`);
  binary floating-point representation error is abstracted away.
* Python `datetime` values are modelled at day granularity: a calendar
  date is a `(year, month, day)` triple, and date arithmetic happens on
  its proleptic-Gregorian ordinal (the number `datetime.date.toordinal`
  returns), exactly as CPython computes it.  Time-of-day components,
  which the repository never populates with anything but midnight, are
  dropped.
* The SQL store is modelled as in-memory lists in insertion order;
  `select ... .first()` becomes `List.find?`, a `WHERE` clause becomes
  `List.filter`, and each `session.commit()` is an explicit new store
  value.
-/

/-! ## Python rounding (banker's rounding, as `round` does) -/

/-- Python `round(x)`: round half to even, returning an integer. -/
def pyRoundQ (x : ℚ) : ℤ :=
  if x - ⌊x⌋ < 1/2 then ⌊x⌋
  else if 1/2 < x - ⌊x⌋ then ⌊x⌋ + 1
  else if ⌊x⌋ % 2 = 0 then ⌊x⌋ else ⌊x⌋ + 1

/-- Python `round(x, 1)`: round half to even at one decimal place. -/
def pyRound1 (x : ℚ) : ℚ := (pyRoundQ (x * 10) : ℚ) / 10

/-- Python `round(x, 2)`: round half to even at two decimal places. -/
def pyRound2 (x : ℚ) : ℚ := (pyRoundQ (x * 100) : ℚ) / 100

theorem pyRoundQ_zero : pyRoundQ 0 = 0 := by norm_num [pyRoundQ]

theorem pyRound1_zero : pyRound1 0 = 0 := by
  rw [pyRound1]
  norm_num [pyRoundQ_zero]

theorem pyRound2_zero : pyRound2 0 = 0 := by
  rw [pyRound2]
  norm_num [pyRoundQ_zero]

/-! ## Calendar arithmetic (`datetime.date`, as CPython implements it) -/

/-- A calendar date, as carried by Python `datetime` values (times in
this repository are midnight, so the date triple is the whole state). -/
structure PyDate where
  year : ℕ
  month : ℕ
  day : ℕ
deriving Repr, DecidableEq

/-- Gregorian leap-year test (`calendar.isleap`). -/
def isLeap (y : ℕ) : Bool := y % 4 == 0 && (y % 100 != 0 || y % 400 == 0)

/-- Length of month `m` in year `y` (`_days_in_month`). -/
def daysInMonth (y m : ℕ) : ℕ :=
  if m = 2 then (if isLeap y then 29 else 28)
  else if m = 4 ∨ m = 6 ∨ m = 9 ∨ m = 11 then 30
  else 31

/-- Days before January 1 of year `y` in the proleptic Gregorian
calendar (`_days_before_year`). -/
def daysBeforeYear (y : ℕ) : ℕ :=
  365 * (y - 1) + (y - 1) / 4 - (y - 1) / 100 + (y - 1) / 400

/-- Days in year `y` preceding the first of month `m`
(`_days_before_month`). -/
def daysBeforeMonth (y m : ℕ) : ℕ :=
  ((List.range (m - 1)).map (fun k => daysInMonth y (k + 1))).sum

/-- `datetime.date.toordinal`: day number with 0001-01-01 as day 1. -/
def toOrdinal (d : PyDate) : ℤ :=
  (daysBeforeYear d.year + daysBeforeMonth d.year d.month + d.day : ℕ)

/-- Weekday of an ordinal, Monday = 0 (`date.weekday`; ordinal 1 is a
Monday, and `Int` `%` with a positive modulus matches Python `%`). -/
def weekdayOfOrd (o : ℤ) : ℤ := (o + 6) % 7

/-- `d.weekday()`, Monday = 0. -/
def pyWeekday (d : PyDate) : ℤ := weekdayOfOrd (toOrdinal d)

/-- Ordinal of the Monday starting ISO week 1 of year `y`
(CPython `_isoweek1monday`). -/
def isoWeek1Monday (y : ℕ) : ℤ :=
  let firstday : ℤ := (daysBeforeYear y : ℤ) + 1
  let firstweekday := (firstday + 6) % 7
  let week1monday := firstday - firstweekday
  if 3 < firstweekday then week1monday + 7 else week1monday

/-- `d.isocalendar()` restricted to (ISO year, ISO week number),
following CPython's algorithm; `Int.ediv` is Python floor division for
the positive divisor 7. -/
def isoCalendar (d : PyDate) : ℤ × ℤ :=
  let today := toOrdinal d
  let week := Int.ediv (today - isoWeek1Monday d.year) 7
  if week < 0 then
    ((d.year : ℤ) - 1, Int.ediv (today - isoWeek1Monday (d.year - 1)) 7 + 1)
  else if 52 ≤ week then
    if isoWeek1Monday (d.year + 1) ≤ today then ((d.year : ℤ) + 1, 1)
    else ((d.year : ℤ), week + 1)
  else ((d.year : ℤ), week + 1)

/-- `d.isocalendar()[0]`. -/
def isoYear (d : PyDate) : ℤ := (isoCalendar d).1

/-- `d.isocalendar()[1]`, the week number used by the create paths. -/
def isoWeekNumber (d : PyDate) : ℤ := (isoCalendar d).2

/-! ## Stable descending sort by a key

`list.sort(key=..., reverse=True)` in Python is a stable sort placing
larger keys first; equal-key elements keep their original relative
order.  Those two properties determine the output uniquely, and the
insertion sort below has exactly them. -/

/-- Insert `x` before the first element whose key is `≤ key x`
(so, after every strictly larger key and before every equal key). -/
def insertDescBy {α β : Type} [LinearOrder β] (key : α → β) (x : α) :
    List α → List α
  | [] => [x]
  | y :: ys => if key y ≤ key x then x :: y :: ys else y :: insertDescBy key x ys

/-- Stable sort, descending on `key` (models `sort(key=..., reverse=True)`). -/
def sortDescBy {α β : Type} [LinearOrder β] (key : α → β) :
    List α → List α
  | [] => []
  | x :: xs => insertDescBy key x (sortDescBy key xs)

theorem mem_insertDescBy {α β : Type} [LinearOrder β] (key : α → β)
    (x a : α) (l : List α) : a ∈ insertDescBy key x l ↔ a = x ∨ a ∈ l := by
  induction l with
  | nil => simp [insertDescBy]
  | cons y ys ih =>
    by_cases h : key y ≤ key x
    · simp [insertDescBy, h]
    · simp [insertDescBy, h, ih]
      tauto

theorem mem_sortDescBy {α β : Type} [LinearOrder β] (key : α → β)
    (a : α) (l : List α) : a ∈ sortDescBy key l ↔ a ∈ l := by
  induction l with
  | nil => simp [sortDescBy]
  | cons x xs ih => simp [sortDescBy, mem_insertDescBy, ih]

theorem pairwise_insertDescBy {α β : Type} [LinearOrder β] (key : α → β)
    (x : α) (l : List α)
    (h : l.Pairwise (fun a b => key b ≤ key a)) :
    (insertDescBy key x l).Pairwise (fun a b => key b ≤ key a) := by
  induction l with
  | nil => simp [insertDescBy]
  | cons y ys ih =>
    rcases List.pairwise_cons.mp h with ⟨hy, hys⟩
    rw [insertDescBy]
    by_cases hle : key y ≤ key x
    · rw [if_pos hle]
      refine List.pairwise_cons.mpr ⟨?_, h⟩
      intro z hz
      rcases List.mem_cons.mp hz with rfl | hz
      · exact hle
      · exact le_trans (hy z hz) hle
    · rw [if_neg hle]
      refine List.pairwise_cons.mpr ⟨?_, ih hys⟩
      intro z hz
      rcases (mem_insertDescBy key x z ys).mp hz with rfl | hz
      · exact le_of_not_le hle
      · exact hy z hz

theorem pairwise_sortDescBy {α β : Type} [LinearOrder β] (key : α → β)
    (l : List α) :
    (sortDescBy key l).Pairwise (fun a b => key b ≤ key a) := by
  induction l with
  | nil => simp [sortDescBy]
  | cons x xs ih => exact pairwise_insertDescBy key x _ ih

theorem filter_insertDescBy_eq {α β : Type} [LinearOrder β] (key : α → β)
    (x : α) (v : β) (l : List α) (hx : key x = v) :
    (insertDescBy key x l).filter (fun a => decide (key a = v)) =
      x :: l.filter (fun a => decide (key a = v)) := by
  induction l with
  | nil => simp [insertDescBy, List.filter_cons, hx]
  | cons y ys ih =>
    rw [insertDescBy]
    by_cases hle : key y ≤ key x
    · rw [if_pos hle]
      simp [List.filter_cons, hx]
    · rw [if_neg hle]
      have hy : ¬ key y = v := by
        intro hv
        exact hle (le_of_eq (hv.trans hx.symm))
      simp [List.filter_cons, hy, ih]

theorem filter_insertDescBy_ne {α β : Type} [LinearOrder β] (key : α → β)
    (x : α) (v : β) (l : List α) (hx : ¬ key x = v) :
    (insertDescBy key x l).filter (fun a => decide (key a = v)) =
      l.filter (fun a => decide (key a = v)) := by
  induction l with
  | nil => simp [insertDescBy, List.filter_cons, hx]
  | cons y ys ih =>
    rw [insertDescBy]
    by_cases hle : key y ≤ key x
    · rw [if_pos hle]
      simp [List.filter_cons, hx]
    · rw [if_neg hle]
      simp [List.filter_cons, ih]

theorem filter_sortDescBy {α β : Type} [LinearOrder β] (key : α → β)
    (v : β) (l : List α) :
    (sortDescBy key l).filter (fun a => decide (key a = v)) =
      l.filter (fun a => decide (key a = v)) := by
  induction l with
  | nil => simp [sortDescBy]
  | cons x xs ih =>
    by_cases hx : key x = v
    · rw [sortDescBy, filter_insertDescBy_eq key x v _ hx, ih,
        List.filter_cons]
      simp [hx]
    · rw [sortDescBy, filter_insertDescBy_ne key x v _ hx, ih,
        List.filter_cons]
      simp [hx]

/-! ## Report snapshot data (`app/routers/reports.py`)

`reports.py` reads the `School`, `Production`, `Purchase` and
`IndirectCost` tables (the repository's models were renamed
School→Hospital, but `reports.py` still reads the pre-rename column
names `schoolId` / `mealsCalculated`; the embedding keeps the names the
report code uses).  A query snapshot is the four tables in insertion
order; dates are day ordinals. -/

structure SchoolRec where
  id : ℕ
  name : String
deriving Repr, DecidableEq

structure ProdRow where
  schoolId : ℕ
  mealsCalculated : ℤ
  productionDate : ℤ
deriving Repr, DecidableEq

structure PurRow where
  totalPrice : ℚ
  purchaseDate : ℤ
deriving Repr, DecidableEq

structure ICRow where
  month : ℕ
  year : ℕ
  category : String
  description : String
  amount : ℚ
  code : Option String
deriving Repr, DecidableEq

structure ReportDB where
  schools : List SchoolRec
  productions : List ProdRow
  purchases : List PurRow
  indirectCosts : List ICRow
deriving Repr, DecidableEq

/-- `select(Production).where(func.date(productionDate) == o)`. -/
def prodsOnDay (db : ReportDB) (o : ℤ) : List ProdRow :=
  db.productions.filter (fun p => p.productionDate == o)

/-- `select(Production).where(a <= date, date <= b)`. -/
def prodsInRange (db : ReportDB) (a b : ℤ) : List ProdRow :=
  db.productions.filter (fun p => a ≤ p.productionDate && p.productionDate ≤ b)

/-- `select(Production).where(a <= date)`. -/
def prodsFrom (db : ReportDB) (a : ℤ) : List ProdRow :=
  db.productions.filter (fun p => a ≤ p.productionDate)

/-- `select(Purchase).where(a <= date, date <= b)`. -/
def pursInRange (db : ReportDB) (a b : ℤ) : List PurRow :=
  db.purchases.filter (fun p => a ≤ p.purchaseDate && p.purchaseDate ≤ b)

/-- `select(Purchase).where(a <= date)`. -/
def pursFrom (db : ReportDB) (a : ℤ) : List PurRow :=
  db.purchases.filter (fun p => a ≤ p.purchaseDate)

/-- `select(IndirectCost).where(year == y, month == m)`. -/
def icsForMonth (db : ReportDB) (y m : ℕ) : List ICRow :=
  db.indirectCosts.filter (fun c => c.year == y && c.month == m)

/-- `sum(p.mealsCalculated for p in ...)`. -/
def sumMeals (ps : List ProdRow) : ℤ := (ps.map (fun p => p.mealsCalculated)).sum

/-- `sum(p.totalPrice for p in ...)`. -/
def sumPrices (ps : List PurRow) : ℚ := (ps.map (fun p => p.totalPrice)).sum

/-- `sum(c.amount for c in ...)`. -/
def sumAmounts (cs : List ICRow) : ℚ := (cs.map (fun c => c.amount)).sum

/-! ### Dashboard (`get_dashboard_data`) -/

/-- `today - timedelta(days=today.weekday())`. -/
def weekStartOrd (t : PyDate) : ℤ := toOrdinal t - pyWeekday t

/-- `today.replace(day=1)`. -/
def monthStartOrd (t : PyDate) : ℤ := toOrdinal t - ((t.day : ℤ) - 1)

def dashYesterdayProds (db : ReportDB) (t : PyDate) : List ProdRow :=
  prodsOnDay db (toOrdinal t - 1)

def dashYesterdayMeals (db : ReportDB) (t : PyDate) : ℤ :=
  sumMeals (dashYesterdayProds db t)

def dashWeekMeals (db : ReportDB) (t : PyDate) : ℤ :=
  sumMeals (prodsInRange db (weekStartOrd t) (weekStartOrd t + 6))

def dashWeekCost (db : ReportDB) (t : PyDate) : ℚ :=
  sumPrices (pursInRange db (weekStartOrd t) (weekStartOrd t + 6))

def dashMonthMeals (db : ReportDB) (t : PyDate) : ℤ :=
  sumMeals (prodsFrom db (monthStartOrd t))

def dashMonthCost (db : ReportDB) (t : PyDate) : ℚ :=
  sumPrices (pursFrom db (monthStartOrd t))

/-- Indirect costs for `(month_start.month, month_start.year)`, which
equal `today`'s month and year. -/
def dashMonthIndirect (db : ReportDB) (t : PyDate) : ℚ :=
  sumAmounts (icsForMonth db t.year t.month)

/-- `week_ingredient_cost / week_meals if week_meals > 0 else 0`. -/
def rawCurrentWeekCPM (db : ReportDB) (t : PyDate) : ℚ :=
  if 0 < dashWeekMeals db t then dashWeekCost db t / (dashWeekMeals db t : ℚ) else 0

/-- `(month_ingredient_cost + month_indirect_total) / month_meals if
month_meals > 0 else 0`. -/
def rawMonthAvgCPM (db : ReportDB) (t : PyDate) : ℚ :=
  if 0 < dashMonthMeals db t then
    (dashMonthCost db t + dashMonthIndirect db t) / (dashMonthMeals db t : ℚ)
  else 0

/-- `week_start - timedelta(weeks=4-i)` in the 5-point CPM trend. -/
def trendWeekStart (t : PyDate) (i : ℕ) : ℤ := weekStartOrd t - 7 * (4 - (i : ℤ))

def trendWeekMeals (db : ReportDB) (t : PyDate) (i : ℕ) : ℤ :=
  sumMeals (prodsInRange db (trendWeekStart t i) (trendWeekStart t i + 6))

def trendWeekCost (db : ReportDB) (t : PyDate) (i : ℕ) : ℚ :=
  sumPrices (pursInRange db (trendWeekStart t i) (trendWeekStart t i + 6))

/-- `week_cost_trend / week_meals_trend if week_meals_trend > 0 else 0`. -/
def rawTrendCPM (db : ReportDB) (t : PyDate) (i : ℕ) : ℚ :=
  if 0 < trendWeekMeals db t i then
    trendWeekCost db t i / (trendWeekMeals db t i : ℚ)
  else 0

/-- One value of the `school_meals` dict: accumulated meals plus the
school fetched at first encounter (the store is fixed during a request,
so re-fetching on later records when the first fetch returned `None`
yields `None` again; fetch-at-creation is observably the same). -/
structure SchoolGroup where
  schoolId : ℕ
  meals : ℤ
  school : Option SchoolRec
deriving Repr, DecidableEq

/-- One iteration of the dashboard grouping loop: dict entry creation
with `meals = 0` followed by `+=` collapses to creating the entry with
the record's meals. -/
def bumpSchoolGroup (db : ReportDB) (acc : List SchoolGroup) (p : ProdRow) :
    List SchoolGroup :=
  if acc.any (fun g => g.schoolId == p.schoolId) then
    acc.map (fun g =>
      if g.schoolId == p.schoolId then
        { g with meals := g.meals + p.mealsCalculated }
      else g)
  else
    acc ++ [{ schoolId := p.schoolId, meals := p.mealsCalculated,
              school := db.schools.find? (fun s => s.id == p.schoolId) }]

def dashContribGroups (db : ReportDB) (t : PyDate) : List SchoolGroup :=
  (dashYesterdayProds db t).foldl (bumpSchoolGroup db) []

/-- An entry of `schoolsContribution` (and of cost-analysis `schools`). -/
structure SchoolContribution where
  name : String
  meals : ℤ
  percentage : ℚ
deriving Repr, DecidableEq

/-- The contribution list before sorting: groups whose school fetch
succeeded, with percentage of yesterday's total. -/
def dashContribEntries (db : ReportDB) (t : PyDate) : List SchoolContribution :=
  (dashContribGroups db t).filterMap (fun g =>
    match g.school with
    | some sc =>
        some { name := sc.name, meals := g.meals,
               percentage :=
                 pyRound1 ((g.meals : ℚ) / (dashYesterdayMeals db t : ℚ) * 100) }
    | none => none)

/-- `date.strftime('%a')`. -/
def weekdayAbbrev (o : ℤ) : String :=
  match (weekdayOfOrd o).toNat with
  | 0 => "Mon" | 1 => "Tue" | 2 => "Wed" | 3 => "Thu"
  | 4 => "Fri" | 5 => "Sat" | _ => "Sun"

structure TrendDay where
  date : String
  meals : ℤ
deriving Repr, DecidableEq

structure WeekTrendEntry where
  week : String
  cpm : ℤ
deriving Repr, DecidableEq

structure Dashboard where
  yesterdayMeals : ℤ
  weekToDateMeals : ℤ
  currentWeekCPM : ℤ
  monthToDateAvgCPM : ℤ
  schoolsContribution : List SchoolContribution
  sevenDayTrend : List TrendDay
  monthCPMTrend : List WeekTrendEntry
deriving Repr, DecidableEq

/-- `GET /reports/dashboard`. -/
def getDashboardData (db : ReportDB) (t : PyDate) : Dashboard :=
  { yesterdayMeals := dashYesterdayMeals db t
    weekToDateMeals := dashWeekMeals db t
    currentWeekCPM := pyRoundQ (rawCurrentWeekCPM db t)
    monthToDateAvgCPM := pyRoundQ (rawMonthAvgCPM db t)
    schoolsContribution :=
      if 0 < dashYesterdayMeals db t then
        sortDescBy (fun e => e.meals) (dashContribEntries db t)
      else []
    sevenDayTrend :=
      (List.range 7).map (fun i =>
        { date := weekdayAbbrev (toOrdinal t - (6 - (i : ℤ)))
          meals := sumMeals (prodsOnDay db (toOrdinal t - (6 - (i : ℤ)))) })
    monthCPMTrend :=
      (List.range 5).map (fun i =>
        { week := if i == 4 then "Current" else "W" ++ toString (i + 1)
          cpm := pyRoundQ (rawTrendCPM db t i) }) }

/-! ### Weekly report (`get_weekly_report`) -/

/-- `jan_1 + timedelta(weeks=week_number-1) - timedelta(days=jan_1.weekday())`. -/
def weeklyWeekStartOrd (year wn : ℕ) : ℤ :=
  toOrdinal ⟨year, 1, 1⟩ + 7 * ((wn : ℤ) - 1) - weekdayOfOrd (toOrdinal ⟨year, 1, 1⟩)

def weeklyPurchases (db : ReportDB) (year wn : ℕ) : List PurRow :=
  pursInRange db (weeklyWeekStartOrd year wn) (weeklyWeekStartOrd year wn + 6)

def weeklyProductions (db : ReportDB) (year wn : ℕ) : List ProdRow :=
  prodsInRange db (weeklyWeekStartOrd year wn) (weeklyWeekStartOrd year wn + 6)

/-- A value of `daily_data`; the ISO date string key is represented by
the day ordinal (the two are in bijection). -/
structure DailyEntry where
  date : ℤ
  meals : ℤ
  cost : ℚ
deriving Repr, DecidableEq

def bumpDailyMeals (acc : List DailyEntry) (p : ProdRow) : List DailyEntry :=
  if acc.any (fun e => e.date == p.productionDate) then
    acc.map (fun e =>
      if e.date == p.productionDate then { e with meals := e.meals + p.mealsCalculated }
      else e)
  else
    acc ++ [{ date := p.productionDate, meals := p.mealsCalculated, cost := 0 }]

def bumpDailyCost (acc : List DailyEntry) (pu : PurRow) : List DailyEntry :=
  if acc.any (fun e => e.date == pu.purchaseDate) then
    acc.map (fun e =>
      if e.date == pu.purchaseDate then { e with cost := e.cost + pu.totalPrice }
      else e)
  else
    acc ++ [{ date := pu.purchaseDate, meals := 0, cost := pu.totalPrice }]

def weeklyDailyData (db : ReportDB) (year wn : ℕ) : List DailyEntry :=
  (weeklyPurchases db year wn).foldl bumpDailyCost
    ((weeklyProductions db year wn).foldl bumpDailyMeals [])

structure WeeklyReport where
  weekYear : ℕ
  weekNumber : ℕ
  startDate : ℤ
  endDate : ℤ
  purchases : List PurRow
  productions : List ProdRow
  dailyData : List DailyEntry
deriving Repr, DecidableEq

/-- `GET /reports/weekly`. -/
def getWeeklyReport (db : ReportDB) (year wn : ℕ) : WeeklyReport :=
  { weekYear := year
    weekNumber := wn
    startDate := weeklyWeekStartOrd year wn
    endDate := weeklyWeekStartOrd year wn + 6
    purchases := weeklyPurchases db year wn
    productions := weeklyProductions db year wn
    dailyData := weeklyDailyData db year wn }

/-! ### Indirect-cost breakdown (`get_indirect_costs_breakdown`) -/

/-- `f"{cost.code}_{cost.category}" if cost.code else cost.category`
(Python truthiness: `None` and the empty string both fail the test). -/
def icKey (c : ICRow) : String :=
  match c.code with
  | some s => if s = "" then c.category else s ++ "_" ++ c.category
  | none => c.category

/-- `cost.code or ""`. -/
def codeOrEmpty (c : ICRow) : String :=
  match c.code with
  | some s => s
  | none => ""

/-- A value of `cost_groups`: code/category/description are taken from
the first record of the key; creation with `amount = 0` followed by
`+=` collapses to creating with the record's amount. -/
structure CostGroup where
  key : String
  code : String
  category : String
  description : String
  amount : ℚ
deriving Repr, DecidableEq

def bumpIC (acc : List CostGroup) (c : ICRow) : List CostGroup :=
  if acc.any (fun g => g.key == icKey c) then
    acc.map (fun g =>
      if g.key == icKey c then { g with amount := g.amount + c.amount } else g)
  else
    acc ++ [{ key := icKey c, code := codeOrEmpty c, category := c.category,
              description := c.description, amount := c.amount }]

/-- `datetime(year, month, 1)` as an ordinal. -/
def monthStartOrdOf (y m : ℕ) : ℤ := toOrdinal ⟨y, m, 1⟩

/-- First of the next month minus one day. -/
def monthEndOrdOf (y m : ℕ) : ℤ :=
  (if m = 12 then toOrdinal ⟨y + 1, 1, 1⟩ else toOrdinal ⟨y, m + 1, 1⟩) - 1

def icGroups (db : ReportDB) (y m : ℕ) : List CostGroup :=
  (icsForMonth db y m).foldl bumpIC []

def icTotalAmount (db : ReportDB) (y m : ℕ) : ℚ :=
  sumAmounts (icsForMonth db y m)

def icTotalMeals (db : ReportDB) (y m : ℕ) : ℤ :=
  sumMeals (prodsInRange db (monthStartOrdOf y m) (monthEndOrdOf y m))

structure ICDetail where
  code : String
  category : String
  description : String
  amount : ℚ
  percentage : ℚ
deriving Repr, DecidableEq

def icDetails (db : ReportDB) (y m : ℕ) : List ICDetail :=
  (icGroups db y m).map (fun g =>
    { code := g.code, category := g.category, description := g.description,
      amount := g.amount,
      percentage :=
        pyRound1 (if 0 < icTotalAmount db y m then
            g.amount / icTotalAmount db y m * 100
          else 0) })

structure ICBreakdown where
  totalAmount : ℚ
  totalMeals : ℤ
  costPerMeal : ℚ
  details : List ICDetail
deriving Repr, DecidableEq

/-- `GET /reports/indirect-costs-breakdown`. -/
def getIndirectCostsBreakdown (db : ReportDB) (y m : ℕ) : ICBreakdown :=
  { totalAmount := icTotalAmount db y m
    totalMeals := icTotalMeals db y m
    costPerMeal :=
      pyRound2 (if 0 < icTotalMeals db y m then
          icTotalAmount db y m / (icTotalMeals db y m : ℚ)
        else 0)
    details := sortDescBy (fun d => d.amount) (icDetails db y m) }

/-! ### Cost analysis (`get_cost_analysis`) -/

def caPurchases (db : ReportDB) (y m : ℕ) : List PurRow :=
  pursInRange db (monthStartOrdOf y m) (monthEndOrdOf y m)

def caProductions (db : ReportDB) (y m : ℕ) : List ProdRow :=
  prodsInRange db (monthStartOrdOf y m) (monthEndOrdOf y m)

def caTotalIngredientCost (db : ReportDB) (y m : ℕ) : ℚ :=
  sumPrices (caPurchases db y m)

def caTotalIndirectCost (db : ReportDB) (y m : ℕ) : ℚ :=
  sumAmounts (icsForMonth db y m)

def caTotalMeals (db : ReportDB) (y m : ℕ) : ℤ :=
  sumMeals (caProductions db y m)

def rawIngredientCPM (db : ReportDB) (y m : ℕ) : ℚ :=
  if 0 < caTotalMeals db y m then
    caTotalIngredientCost db y m / (caTotalMeals db y m : ℚ)
  else 0

def rawIndirectCPM (db : ReportDB) (y m : ℕ) : ℚ :=
  if 0 < caTotalMeals db y m then
    caTotalIndirectCost db y m / (caTotalMeals db y m : ℚ)
  else 0

/-- A value of the cost-analysis `school_data` dict: the name is
resolved at entry creation (`"Unknown"` if the school id is absent). -/
structure CASchoolGroup where
  schoolId : ℕ
  name : String
  meals : ℤ
deriving Repr, DecidableEq

def bumpCASchool (db : ReportDB) (acc : List CASchoolGroup) (p : ProdRow) :
    List CASchoolGroup :=
  if acc.any (fun g => g.schoolId == p.schoolId) then
    acc.map (fun g =>
      if g.schoolId == p.schoolId then
        { g with meals := g.meals + p.mealsCalculated }
      else g)
  else
    acc ++ [{ schoolId := p.schoolId,
              name := match db.schools.find? (fun s => s.id == p.schoolId) with
                      | some sc => sc.name
                      | none => "Unknown",
              meals := p.mealsCalculated }]

def caSchoolGroups (db : ReportDB) (y m : ℕ) : List CASchoolGroup :=
  (caProductions db y m).foldl (bumpCASchool db) []

def caSchoolEntries (db : ReportDB) (y m : ℕ) : List SchoolContribution :=
  (caSchoolGroups db y m).map (fun g =>
    { name := g.name, meals := g.meals,
      percentage :=
        pyRound1 (if 0 < caTotalMeals db y m then
            (g.meals : ℚ) / (caTotalMeals db y m : ℚ) * 100
          else 0) })

structure CostAnalysis where
  totalIngredientCost : ℚ
  totalIndirectCost : ℚ
  totalMeals : ℤ
  ingredientCPM : ℚ
  indirectCPM : ℚ
  totalCPM : ℚ
  schools : List SchoolContribution
  purchases : List PurRow
  productions : List ProdRow
  indirectCosts : List ICRow
deriving Repr, DecidableEq

/-- `GET /reports/cost-analysis`. -/
def getCostAnalysis (db : ReportDB) (y m : ℕ) : CostAnalysis :=
  { totalIngredientCost := caTotalIngredientCost db y m
    totalIndirectCost := caTotalIndirectCost db y m
    totalMeals := caTotalMeals db y m
    ingredientCPM := pyRound2 (rawIngredientCPM db y m)
    indirectCPM := pyRound2 (rawIndirectCPM db y m)
    totalCPM := pyRound2 (rawIngredientCPM db y m + rawIndirectCPM db y m)
    schools := sortDescBy (fun e => e.meals) (caSchoolEntries db y m)
    purchases := caPurchases db y m
    productions := caProductions db y m
    indirectCosts := icsForMonth db y m }

/-! ## Record store and mutating endpoints
(`app/routers/{purchases,production,weeks,hospitals}.py`)

UUID primary keys are modelled by a store-wide counter handing out
fresh numeric ids.  Each `session.commit()` produces a new store value;
`createPurchase`/`createProduction` take failure-injection flags for
the commits that follow the week commit, and on failure return the
store state committed so far. -/

inductive WeekStatus
  | ACTIVE
  | COMPLETED
  | LOCKED
deriving Repr, DecidableEq

inductive MealService
  | BREAKFAST
  | LUNCH
  | DINNER
deriving Repr, DecidableEq

/-- A `weeks` row (`app/models.py`, `Week`). -/
structure Week where
  id : ℕ
  month : ℕ
  year : ℕ
  weekNumber : ℤ
  startDate : ℤ
  endDate : ℤ
  mealsServed : ℤ := 0
  ingredientCost : ℚ := 0
  costPerMeal : ℚ := 0
  overheadPerMeal : ℚ := 0
  totalCPM : ℚ := 0
  status : WeekStatus := .ACTIVE
deriving Repr, DecidableEq

/-- A `purchases` row (aggregation-relevant fields). -/
structure PurchaseRec where
  id : ℕ
  weekId : ℕ
  ingredientId : ℕ
  service : MealService
  purchaseDate : PyDate
  quantity : ℚ
  unitPrice : ℚ
  totalPrice : ℚ
deriving Repr, DecidableEq

/-- A `productions` row; `production.py` still writes the pre-rename
`schoolId` field, which the post-rename model calls `hospitalId`.  The
post-rename name is used here, matching `models.py`. -/
structure ProductionRec where
  id : ℕ
  weekId : ℕ
  hospitalId : ℕ
  productionDate : PyDate
  mealsCalculated : ℤ
deriving Repr, DecidableEq

structure IngredientRec where
  id : ℕ
  name : String
  lastPrice : ℚ
deriving Repr, DecidableEq

/-- A `hospitals` row (`School` in the pre-rename routers). -/
structure HospitalRec where
  id : ℕ
  name : String
deriving Repr, DecidableEq

structure AppStore where
  weeks : List Week
  purchases : List PurchaseRec
  productions : List ProductionRec
  ingredients : List IngredientRec
  hospitals : List HospitalRec
  nextId : ℕ
deriving Repr, DecidableEq

/-- `select(Week).where(Week.year == y, Week.weekNumber == wn).first()`.
Note: `y` is the triggering date's *calendar* year in the create paths. -/
def findWeekByKey (s : AppStore) (y : ℕ) (wn : ℤ) : Option Week :=
  s.weeks.find? (fun w => w.year == y && w.weekNumber == wn)

/-- The Week constructed by the auto-create branch of
`create_purchase` / `create_production` for date `d`. -/
def newWeekFor (d : PyDate) (id : ℕ) : Week :=
  { id := id, month := d.month, year := d.year,
    weekNumber := isoWeekNumber d,
    startDate := toOrdinal d - pyWeekday d,
    endDate := toOrdinal d - pyWeekday d + 6 }

/-- The shared "create or get week record based on date" block of
`create_purchase` (lines 64-92) and `create_production` (lines 64-92):
looks up `(date.year, date.isocalendar()[1])` and otherwise inserts and
commits a new Week. -/
def resolveWeek (d : PyDate) (s : AppStore) : Week × AppStore :=
  match findWeekByKey s d.year (isoWeekNumber d) with
  | some w => (w, s)
  | none =>
      let w := newWeekFor d s.nextId
      (w, { s with weeks := s.weeks ++ [w], nextId := s.nextId + 1 })

/-- Input of `POST /purchases` (`PurchaseCreate`). -/
structure PurchaseInput where
  ingredientId : ℕ
  service : MealService
  purchaseDate : PyDate
  quantity : ℚ
  unitPrice : ℚ
  totalPrice : ℚ
deriving Repr, DecidableEq

/-- `create_purchase`: ingredient 404 check, week resolution (committed
on creation), purchase insert + commit, ingredient last-price update +
commit.  `failInsert` / `failPriceUpdate` inject a store failure at the
respective commit; `.error` carries the state already committed. -/
def createPurchase (req : PurchaseInput) (failInsert failPriceUpdate : Bool)
    (s : AppStore) : Except AppStore AppStore :=
  match s.ingredients.find? (fun i => i.id == req.ingredientId) with
  | none => .error s
  | some _ =>
      let ws := resolveWeek req.purchaseDate s
      if failInsert then .error ws.2
      else
        let pur : PurchaseRec :=
          { id := ws.2.nextId, weekId := ws.1.id,
            ingredientId := req.ingredientId, service := req.service,
            purchaseDate := req.purchaseDate, quantity := req.quantity,
            unitPrice := req.unitPrice, totalPrice := req.totalPrice }
        let s2 := { ws.2 with purchases := ws.2.purchases ++ [pur],
                              nextId := ws.2.nextId + 1 }
        if failPriceUpdate then .error s2
        else
          .ok { s2 with
                ingredients := s2.ingredients.map (fun i =>
                  if i.id == req.ingredientId then
                    { i with lastPrice := req.unitPrice }
                  else i) }

/-- Input of `POST /production` (aggregation-relevant fields). -/
structure ProductionInput where
  hospitalId : ℕ
  productionDate : PyDate
  mealsCalculated : ℤ
deriving Repr, DecidableEq

/-- `create_production`: school/hospital 404 check, week resolution
(committed on creation), production insert + commit.  `failInsert`
injects a store failure at the production commit. -/
def createProduction (req : ProductionInput) (failInsert : Bool)
    (s : AppStore) : Except AppStore AppStore :=
  match s.hospitals.find? (fun h => h.id == req.hospitalId) with
  | none => .error s
  | some _ =>
      let ws := resolveWeek req.productionDate s
      if failInsert then .error ws.2
      else
        let prod : ProductionRec :=
          { id := ws.2.nextId, weekId := ws.1.id,
            hospitalId := req.hospitalId,
            productionDate := req.productionDate,
            mealsCalculated := req.mealsCalculated }
        .ok { ws.2 with productions := ws.2.productions ++ [prod],
                        nextId := ws.2.nextId + 1 }

/-- Error responses raised by the delete endpoints: 404 and the 400
"cannot delete ... with existing data" rejection. -/
inductive ApiError
  | notFound
  | badRequest
deriving Repr, DecidableEq

/-- `DELETE /weeks/{id}` (`weeks.py`, `delete_week`): the response and
the store after the request (the exception paths leave it untouched;
`week.purchases or week.productions` are the child rows by `weekId`). -/
def deleteWeek (wid : ℕ) (s : AppStore) : Option ApiError × AppStore :=
  match s.weeks.find? (fun w => w.id == wid) with
  | none => (some .notFound, s)
  | some w =>
      if s.purchases.any (fun p => p.weekId == w.id)
          || s.productions.any (fun p => p.weekId == w.id) then
        (some .badRequest, s)
      else
        (none, { s with weeks := s.weeks.eraseP (fun w2 => w2.id == wid) })

/-- `DELETE /hospitals/{id}` (`hospitals.py`, `delete_hospital`):
`hospital.productions` are the child rows by hospital id. -/
def deleteHospital (hid : ℕ) (s : AppStore) : Option ApiError × AppStore :=
  match s.hospitals.find? (fun h => h.id == hid) with
  | none => (some .notFound, s)
  | some h =>
      if s.productions.any (fun p => p.hospitalId == h.id) then
        (some .badRequest, s)
      else
        (none, { s with hospitals := s.hospitals.eraseP (fun h2 => h2.id == hid) })

/-! ## Claims -/

/-- The empty record store. -/
def emptyStore : AppStore := ⟨[], [], [], [], [], 0⟩

/-- The empty report snapshot. -/
def emptyReportDB : ReportDB := ⟨[], [], [], []⟩

/-- Claim C4: for every input date, the Week bucket newly created by the
purchase/production create path has `startDate = d - d.weekday()` (a
Monday) and `endDate = startDate + 6 days`. -/
theorem C4_new_week_monday_span (d : PyDate) (s : AppStore)
    (h : findWeekByKey s d.year (isoWeekNumber d) = none) :
    weekdayOfOrd ((resolveWeek d s).1.startDate) = 0 ∧
    (resolveWeek d s).1.endDate = (resolveWeek d s).1.startDate + 6 ∧
    (resolveWeek d s).1.startDate = toOrdinal d - pyWeekday d := by
  simp only [resolveWeek, h]
  refine ⟨?_, rfl, rfl⟩
  show (toOrdinal d - (toOrdinal d + 6) % 7 + 6) % 7 = 0
  omega

/-- Witness for C4 at 2025-03-05 on the empty store. -/
theorem C4_witness :
    findWeekByKey emptyStore (PyDate.mk 2025 3 5).year
        (isoWeekNumber ⟨2025, 3, 5⟩) = none ∧
    (weekdayOfOrd ((resolveWeek ⟨2025, 3, 5⟩ emptyStore).1.startDate) = 0 ∧
     (resolveWeek ⟨2025, 3, 5⟩ emptyStore).1.endDate =
       (resolveWeek ⟨2025, 3, 5⟩ emptyStore).1.startDate + 6 ∧
     (resolveWeek ⟨2025, 3, 5⟩ emptyStore).1.startDate =
       toOrdinal ⟨2025, 3, 5⟩ - pyWeekday ⟨2025, 3, 5⟩) :=
  ⟨rfl, C4_new_week_monday_span ⟨2025, 3, 5⟩ emptyStore rfl⟩

/-- Claim C7: a weekly report whose computed date span contains no
purchases and no productions returns empty purchase/production lists
and an empty daily breakdown (the handler is total: no failure path). -/
theorem C7_weekly_report_empty (db : ReportDB) (year wn : ℕ)
    (hp : weeklyPurchases db year wn = [])
    (hq : weeklyProductions db year wn = []) :
    (getWeeklyReport db year wn).purchases = [] ∧
    (getWeeklyReport db year wn).productions = [] ∧
    (getWeeklyReport db year wn).dailyData = [] := by
  refine ⟨hp, hq, ?_⟩
  show weeklyDailyData db year wn = []
  rw [weeklyDailyData, hp, hq]
  rfl

/-- Witness for C7: week 1 of 2025 on the empty snapshot. -/
theorem C7_witness :
    weeklyPurchases emptyReportDB 2025 1 = [] ∧
    weeklyProductions emptyReportDB 2025 1 = [] ∧
    ((getWeeklyReport emptyReportDB 2025 1).purchases = [] ∧
     (getWeeklyReport emptyReportDB 2025 1).productions = [] ∧
     (getWeeklyReport emptyReportDB 2025 1).dailyData = []) :=
  ⟨rfl, rfl, C7_weekly_report_empty emptyReportDB 2025 1 rfl rfl⟩

/-- Claim C10 (amended): the dashboard's per-school contribution list
is empty whenever yesterday's total meal count is 0, even if production
records dated yesterday exist, each contributing zero meals; in that
case no zero-percentage entries are emitted.  (When the total is
positive, a group with zero meals does produce a zero-percentage entry
— see the counterexample.) -/
theorem C10_contribution_empty_when_zero_meals (db : ReportDB) (t : PyDate)
    (h : dashYesterdayMeals db t = 0) :
    (getDashboardData db t).schoolsContribution = [] := by
  show (if 0 < dashYesterdayMeals db t then
      sortDescBy (fun e => e.meals) (dashContribEntries db t)
    else []) = []
  rw [h]
  norm_num

/-- Counterexample to C10 as stated: with yesterday total 5 (school "A")
and a production record of school "B" with 0 meals, the dashboard emits
a contribution entry with percentage 0 — zero-percentage entries can be
emitted, contradicting "no zero-percentage entries are ever emitted". -/
def dbC10 : ReportDB :=
  { schools := [⟨1, "A"⟩, ⟨2, "B"⟩]
    productions := [⟨1, 5, 739313⟩, ⟨2, 0, 739313⟩]
    purchases := []
    indirectCosts := [] }

theorem C10_counterexample :
    (getDashboardData dbC10 ⟨2025, 3, 4⟩).schoolsContribution =
      [⟨"A", 5, 100⟩, ⟨"B", 0, 0⟩] := by
  norm_num [getDashboardData, dashYesterdayMeals, dashYesterdayProds, prodsOnDay,
    dbC10, toOrdinal, daysBeforeYear, daysBeforeMonth, daysInMonth, isLeap,
    List.filter_cons, sumMeals, dashContribEntries, dashContribGroups,
    bumpSchoolGroup, List.foldl_cons, List.any_cons, List.find?,
    sortDescBy, insertDescBy, pyRound1, pyRoundQ, List.range_succ]

/-- Witness for C10: a nonempty production list dated yesterday whose
meals sum to 0 still yields an empty contribution list. -/
def dbC10w : ReportDB :=
  { schools := [⟨1, "A"⟩]
    productions := [⟨1, 0, 739313⟩]
    purchases := []
    indirectCosts := [] }

theorem C10_witness :
    dashYesterdayMeals dbC10w ⟨2025, 3, 4⟩ = 0 ∧
    dashYesterdayProds dbC10w ⟨2025, 3, 4⟩ ≠ [] ∧
    (getDashboardData dbC10w ⟨2025, 3, 4⟩).schoolsContribution = [] :=
  ⟨by decide, by decide,
    C10_contribution_empty_when_zero_meals dbC10w ⟨2025, 3, 4⟩ (by decide)⟩

/-- Counterexample to C2 as stated: 2024-12-30 and 2025-01-01 both lie
in ISO week 1 of ISO year 2025, but the create paths key the Week
lookup on the date's *calendar* year (`purchase_date.year`), so the two
dates resolve to different Week records and two buckets are created. -/
theorem C2_counterexample :
    isoYear ⟨2024, 12, 30⟩ = isoYear ⟨2025, 1, 1⟩ ∧
    isoWeekNumber ⟨2024, 12, 30⟩ = isoWeekNumber ⟨2025, 1, 1⟩ ∧
    (resolveWeek ⟨2025, 1, 1⟩ (resolveWeek ⟨2024, 12, 30⟩ emptyStore).2).1.id ≠
      (resolveWeek ⟨2024, 12, 30⟩ emptyStore).1.id ∧
    ((resolveWeek ⟨2025, 1, 1⟩
        (resolveWeek ⟨2024, 12, 30⟩ emptyStore).2).2.weeks).length = 2 := by
  refine ⟨by decide, by decide, by decide, by decide⟩

/-- Claim C2 (amended): two dates with the same *calendar* year and the
same ISO week number resolve to the same Week record, and the second
resolution creates nothing (the store is returned unchanged); this
holds for any two calls in either order.  As stated over the ISO year
the claim fails (see the counterexample): the lookup key is
`(date.year, date.isocalendar()[1])`. -/
theorem C2_same_key_same_week (d1 d2 : PyDate) (s : AppStore)
    (hy : d1.year = d2.year)
    (hw : isoWeekNumber d1 = isoWeekNumber d2) :
    resolveWeek d2 (resolveWeek d1 s).2 = resolveWeek d1 s := by
  have hkey : ∀ st : AppStore,
      findWeekByKey st d2.year (isoWeekNumber d2) =
        findWeekByKey st d1.year (isoWeekNumber d1) := by
    intro st
    rw [hy, hw]
  cases h : findWeekByKey s d1.year (isoWeekNumber d1) with
  | some w =>
      have e1 : resolveWeek d1 s = (w, s) := by
        simp only [resolveWeek, h]
      rw [e1]
      simp only [resolveWeek, hkey s, h]
  | none =>
      have e1 : resolveWeek d1 s =
          (newWeekFor d1 s.nextId,
           { s with weeks := s.weeks ++ [newWeekFor d1 s.nextId],
                    nextId := s.nextId + 1 }) := by
        simp only [resolveWeek, h]
      rw [e1]
      have hfind :
          findWeekByKey
              { s with weeks := s.weeks ++ [newWeekFor d1 s.nextId],
                       nextId := s.nextId + 1 }
              d2.year (isoWeekNumber d2) = some (newWeekFor d1 s.nextId) := by
        rw [hkey]
        unfold findWeekByKey at h ⊢
        rw [List.find?_append, h]
        simp [newWeekFor]
      simp only [resolveWeek, hfind]

/-- Witness for C2 (amended): 2025-03-03 and 2025-03-05 share calendar
year 2025 and ISO week number 10 and resolve to one and the same Week. -/
theorem C2_witness :
    (PyDate.mk 2025 3 3).year = (PyDate.mk 2025 3 5).year ∧
    isoWeekNumber ⟨2025, 3, 3⟩ = isoWeekNumber ⟨2025, 3, 5⟩ ∧
    resolveWeek ⟨2025, 3, 5⟩ (resolveWeek ⟨2025, 3, 3⟩ emptyStore).2 =
      resolveWeek ⟨2025, 3, 3⟩ emptyStore :=
  ⟨rfl, by decide,
    C2_same_key_same_week ⟨2025, 3, 3⟩ ⟨2025, 3, 5⟩ emptyStore rfl (by decide)⟩

/-- Claim C8: deleting a Week with child Purchases or Productions, or a
Hospital with child Productions, is rejected with the 400 conflict
response and leaves the store unchanged; with no children the delete
succeeds and removes exactly that record. -/
theorem C8_delete_dependent_children_guard (s : AppStore) (wid hid : ℕ) :
    (∀ w, s.weeks.find? (fun w2 => w2.id == wid) = some w →
      ((s.purchases.any (fun p => p.weekId == w.id)
          || s.productions.any (fun p => p.weekId == w.id)) = true →
        deleteWeek wid s = (some .badRequest, s)) ∧
      ((s.purchases.any (fun p => p.weekId == w.id)
          || s.productions.any (fun p => p.weekId == w.id)) = false →
        deleteWeek wid s =
          (none, { s with weeks := s.weeks.eraseP (fun w2 => w2.id == wid) }))) ∧
    (∀ h, s.hospitals.find? (fun h2 => h2.id == hid) = some h →
      (s.productions.any (fun p => p.hospitalId == h.id) = true →
        deleteHospital hid s = (some .badRequest, s)) ∧
      (s.productions.any (fun p => p.hospitalId == h.id) = false →
        deleteHospital hid s =
          (none, { s with hospitals := s.hospitals.eraseP (fun h2 => h2.id == hid) }))) := by
  constructor
  · intro w hw
    constructor
    · intro hch
      simp only [deleteWeek, hw, hch]
      rfl
    · intro hch
      simp only [deleteWeek, hw, hch]
      rfl
  · intro h hh
    constructor
    · intro hch
      simp only [deleteHospital, hh, hch]
      rfl
    · intro hch
      simp only [deleteHospital, hh, hch]
      rfl

/-- A store with one week, one hospital, a purchase and a production
attached to the week, and the production attached to the hospital. -/
def storeC8 : AppStore :=
  { weeks := [{ id := 1, month := 3, year := 2025, weekNumber := 10,
                startDate := 739313, endDate := 739319 }]
    purchases := [{ id := 3, weekId := 1, ingredientId := 9,
                    service := .LUNCH, purchaseDate := ⟨2025, 3, 3⟩,
                    quantity := 2, unitPrice := 5, totalPrice := 10 }]
    productions := [{ id := 4, weekId := 1, hospitalId := 2,
                      productionDate := ⟨2025, 3, 3⟩, mealsCalculated := 10 }]
    ingredients := [{ id := 9, name := "rice", lastPrice := 5 }]
    hospitals := [{ id := 2, name := "H" }]
    nextId := 5 }

/-- Like `storeC8` but with no purchases and no productions. -/
def storeC8nc : AppStore :=
  { storeC8 with purchases := [], productions := [] }

/-- Witness for C8: both rejections fire on `storeC8`; both deletes
succeed on `storeC8nc`. -/
theorem C8_witness :
    deleteWeek 1 storeC8 = (some .badRequest, storeC8) ∧
    deleteHospital 2 storeC8 = (some .badRequest, storeC8) ∧
    deleteWeek 1 storeC8nc =
      (none, { storeC8nc with
               weeks := storeC8nc.weeks.eraseP (fun w2 => w2.id == 1) }) ∧
    deleteHospital 2 storeC8nc =
      (none, { storeC8nc with
               hospitals := storeC8nc.hospitals.eraseP (fun h2 => h2.id == 2) }) :=
  ⟨((C8_delete_dependent_children_guard storeC8 1 2).1
      _ (by rfl)).1 (by rfl),
   ((C8_delete_dependent_children_guard storeC8 1 2).2
      _ (by rfl)).1 (by rfl),
   ((C8_delete_dependent_children_guard storeC8nc 1 2).1
      _ (by rfl)).2 (by rfl),
   ((C8_delete_dependent_children_guard storeC8nc 1 2).2
      _ (by rfl)).2 (by rfl)⟩

/-- Claim C9: in `create_purchase`/`create_production`, a Week created
by the auto-create branch is committed before the Purchase/Production
row is inserted, so a failure of the subsequent insert commit (or, for
purchases, of the ingredient last-price update commit) leaves the new
Week persisted: the operation is not atomic with respect to the
auto-created bucket.  The `.error` stores below spell out exactly what
persisted: the new Week always; the purchase row only past its own
commit; the ingredient price never. -/
theorem C9_week_commit_precedes_insert
    (req : PurchaseInput) (reqp : ProductionInput) (s : AppStore)
    (ing : IngredientRec)
    (hing : s.ingredients.find? (fun i => i.id == req.ingredientId) = some ing)
    (hwk : findWeekByKey s req.purchaseDate.year
        (isoWeekNumber req.purchaseDate) = none)
    (hosp : HospitalRec)
    (hhosp : s.hospitals.find? (fun h => h.id == reqp.hospitalId) = some hosp)
    (hwkp : findWeekByKey s reqp.productionDate.year
        (isoWeekNumber reqp.productionDate) = none) :
    (∀ b, createPurchase req true b s =
      .error { s with weeks := s.weeks ++ [newWeekFor req.purchaseDate s.nextId],
                      nextId := s.nextId + 1 }) ∧
    createPurchase req false true s =
      .error { s with
               weeks := s.weeks ++ [newWeekFor req.purchaseDate s.nextId],
               purchases := s.purchases ++
                 [{ id := s.nextId + 1, weekId := s.nextId,
                    ingredientId := req.ingredientId, service := req.service,
                    purchaseDate := req.purchaseDate, quantity := req.quantity,
                    unitPrice := req.unitPrice, totalPrice := req.totalPrice }],
               nextId := s.nextId + 1 + 1 } ∧
    createProduction reqp true s =
      .error { s with weeks := s.weeks ++ [newWeekFor reqp.productionDate s.nextId],
                      nextId := s.nextId + 1 } := by
  refine ⟨?_, ?_, ?_⟩
  · intro b
    simp [createPurchase, hing, resolveWeek, hwk]
  · simp [createPurchase, hing, resolveWeek, hwk, newWeekFor]
  · simp [createProduction, hhosp, resolveWeek, hwkp]

/-- Witness for C9 on a one-ingredient, one-hospital, no-weeks store. -/
def storeC9 : AppStore :=
  { weeks := []
    purchases := []
    productions := []
    ingredients := [{ id := 9, name := "rice", lastPrice := 3 }]
    hospitals := [{ id := 2, name := "H" }]
    nextId := 0 }

def reqC9 : PurchaseInput :=
  { ingredientId := 9, service := .LUNCH, purchaseDate := ⟨2025, 3, 3⟩,
    quantity := 2, unitPrice := 5, totalPrice := 10 }

def reqpC9 : ProductionInput :=
  { hospitalId := 2, productionDate := ⟨2025, 3, 3⟩, mealsCalculated := 10 }

theorem C9_witness :
    (createPurchase reqC9 true false storeC9 =
      .error { storeC9 with
               weeks := [newWeekFor ⟨2025, 3, 3⟩ 0], nextId := 1 }) ∧
    createProduction reqpC9 true storeC9 =
      .error { storeC9 with
               weeks := [newWeekFor ⟨2025, 3, 3⟩ 0], nextId := 1 } :=
  ⟨(C9_week_commit_precedes_insert reqC9 reqpC9 storeC9
      ⟨9, "rice", 3⟩ (by rfl) (by decide) ⟨2, "H"⟩ (by rfl) (by decide)).1 false,
   (C9_week_commit_precedes_insert reqC9 reqpC9 storeC9
      ⟨9, "rice", 3⟩ (by rfl) (by decide) ⟨2, "H"⟩ (by rfl) (by decide)).2.2⟩

/-- Claim C1: every cost-per-meal and percentage computation guards a
zero denominator by returning 0, at every division site: dashboard week
CPM, dashboard month CPM, the 5-point weekly-trend CPMs, the
indirect-breakdown CPM and percentages, and the cost-analysis
ingredient/indirect CPMs and percentages.  Values are exact rationals,
so no NaN or infinity exists to produce; the guards make every division
site total. -/
theorem C1_division_guards (db : ReportDB) (t : PyDate) (y m : ℕ) :
    (dashWeekMeals db t = 0 → (getDashboardData db t).currentWeekCPM = 0) ∧
    (dashMonthMeals db t = 0 → (getDashboardData db t).monthToDateAvgCPM = 0) ∧
    (∀ i, i < 5 → trendWeekMeals db t i = 0 →
      ((getDashboardData db t).monthCPMTrend.map (fun e => e.cpm))[i]? =
        some 0) ∧
    (icTotalMeals db y m = 0 →
      (getIndirectCostsBreakdown db y m).costPerMeal = 0) ∧
    (icTotalAmount db y m = 0 →
      ∀ d ∈ (getIndirectCostsBreakdown db y m).details, d.percentage = 0) ∧
    (caTotalMeals db y m = 0 →
      (getCostAnalysis db y m).ingredientCPM = 0 ∧
      (getCostAnalysis db y m).indirectCPM = 0 ∧
      (getCostAnalysis db y m).totalCPM = 0 ∧
      ∀ e ∈ (getCostAnalysis db y m).schools, e.percentage = 0) := by
  refine ⟨?_, ?_, ?_, ?_, ?_, ?_⟩
  · intro h
    show pyRoundQ (rawCurrentWeekCPM db t) = 0
    rw [rawCurrentWeekCPM, h]
    norm_num [pyRoundQ_zero]
  · intro h
    show pyRoundQ (rawMonthAvgCPM db t) = 0
    rw [rawMonthAvgCPM, h]
    norm_num [pyRoundQ_zero]
  · intro i hi hm
    have hmap : (getDashboardData db t).monthCPMTrend.map (fun e => e.cpm) =
        (List.range 5).map (fun j => pyRoundQ (rawTrendCPM db t j)) := by
      simp [getDashboardData, List.map_map]
    rw [hmap, List.getElem?_map, List.getElem?_range]
    show some (pyRoundQ (rawTrendCPM db t i)) = some 0
    have : rawTrendCPM db t i = 0 := by
      rw [rawTrendCPM, hm]
      norm_num
    rw [this, pyRoundQ_zero]
    exact hi
  · intro h
    show pyRound2 (if 0 < icTotalMeals db y m then
        icTotalAmount db y m / (icTotalMeals db y m : ℚ) else 0) = 0
    rw [h]
    norm_num [pyRound2_zero]
  · intro h d hd
    have hd1 : d ∈ sortDescBy (fun d2 => d2.amount) (icDetails db y m) := hd
    have hd2 : d ∈ icDetails db y m :=
      (mem_sortDescBy (fun d2 => d2.amount) d _).mp hd1
    rcases List.mem_map.mp hd2 with ⟨g, _, rfl⟩
    show pyRound1 (if 0 < icTotalAmount db y m then
        g.amount / icTotalAmount db y m * 100 else 0) = 0
    rw [h]
    norm_num [pyRound1_zero]
  · intro h
    refine ⟨?_, ?_, ?_, ?_⟩
    · show pyRound2 (rawIngredientCPM db y m) = 0
      rw [rawIngredientCPM, h]
      norm_num [pyRound2_zero]
    · show pyRound2 (rawIndirectCPM db y m) = 0
      rw [rawIndirectCPM, h]
      norm_num [pyRound2_zero]
    · show pyRound2 (rawIngredientCPM db y m + rawIndirectCPM db y m) = 0
      rw [rawIngredientCPM, rawIndirectCPM, h]
      norm_num [pyRound2_zero]
    · intro e he
      have he1 : e ∈ sortDescBy (fun e2 => e2.meals) (caSchoolEntries db y m) := he
      have he2 : e ∈ caSchoolEntries db y m :=
        (mem_sortDescBy (fun e2 => e2.meals) e _).mp he1
      rcases List.mem_map.mp he2 with ⟨g, _, rfl⟩
      show pyRound1 (if 0 < caTotalMeals db y m then
          (g.meals : ℚ) / (caTotalMeals db y m : ℚ) * 100 else 0) = 0
      rw [h]
      norm_num [pyRound1_zero]

/-- Witness for C1 on the empty snapshot: every denominator is 0 and
every guarded output is 0. -/
theorem C1_witness :
    dashWeekMeals emptyReportDB ⟨2025, 3, 4⟩ = 0 ∧
    dashMonthMeals emptyReportDB ⟨2025, 3, 4⟩ = 0 ∧
    trendWeekMeals emptyReportDB ⟨2025, 3, 4⟩ 0 = 0 ∧
    icTotalMeals emptyReportDB 2025 3 = 0 ∧
    icTotalAmount emptyReportDB 2025 3 = 0 ∧
    caTotalMeals emptyReportDB 2025 3 = 0 ∧
    (getDashboardData emptyReportDB ⟨2025, 3, 4⟩).currentWeekCPM = 0 ∧
    (getDashboardData emptyReportDB ⟨2025, 3, 4⟩).monthToDateAvgCPM = 0 ∧
    ((getDashboardData emptyReportDB ⟨2025, 3, 4⟩).monthCPMTrend.map
        (fun e => e.cpm))[0]? = some 0 ∧
    (getIndirectCostsBreakdown emptyReportDB 2025 3).costPerMeal = 0 ∧
    (∀ d ∈ (getIndirectCostsBreakdown emptyReportDB 2025 3).details,
      d.percentage = 0) ∧
    (getCostAnalysis emptyReportDB 2025 3).ingredientCPM = 0 ∧
    (getCostAnalysis emptyReportDB 2025 3).indirectCPM = 0 ∧
    (getCostAnalysis emptyReportDB 2025 3).totalCPM = 0 ∧
    ∀ e ∈ (getCostAnalysis emptyReportDB 2025 3).schools, e.percentage = 0 :=
  ⟨by decide, by decide, by decide, by decide, by norm_num [icTotalAmount,
      icsForMonth, sumAmounts, emptyReportDB], by decide,
   (C1_division_guards emptyReportDB ⟨2025, 3, 4⟩ 2025 3).1 (by decide),
   (C1_division_guards emptyReportDB ⟨2025, 3, 4⟩ 2025 3).2.1 (by decide),
   (C1_division_guards emptyReportDB ⟨2025, 3, 4⟩ 2025 3).2.2.1 0
     (by norm_num) (by decide),
   (C1_division_guards emptyReportDB ⟨2025, 3, 4⟩ 2025 3).2.2.2.1 (by decide),
   (C1_division_guards emptyReportDB ⟨2025, 3, 4⟩ 2025 3).2.2.2.2.1
     (by norm_num [icTotalAmount, icsForMonth, sumAmounts, emptyReportDB]),
   ((C1_division_guards emptyReportDB ⟨2025, 3, 4⟩ 2025 3).2.2.2.2.2
     (by decide)).1,
   ((C1_division_guards emptyReportDB ⟨2025, 3, 4⟩ 2025 3).2.2.2.2.2
     (by decide)).2.1,
   ((C1_division_guards emptyReportDB ⟨2025, 3, 4⟩ 2025 3).2.2.2.2.2
     (by decide)).2.2.1,
   ((C1_division_guards emptyReportDB ⟨2025, 3, 4⟩ 2025 3).2.2.2.2.2
     (by decide)).2.2.2⟩

/-- Claim C5: report precision matches the presentation contract:
dashboard money-like CPM outputs (`currentWeekCPM`, `monthToDateAvgCPM`
and each trend `cpm`) are `round(x)` of the guarded raw ratio;
`costPerMeal`-style breakdown fields (indirect-breakdown `costPerMeal`,
cost-analysis `ingredientCPM`/`indirectCPM`/`totalCPM`) are rounded to
2 decimal places; every emitted percentage is rounded to 1 decimal
place. -/
theorem C5_rounding_contract (db : ReportDB) (t : PyDate) (y m : ℕ) :
    (getDashboardData db t).currentWeekCPM = pyRoundQ (rawCurrentWeekCPM db t) ∧
    (getDashboardData db t).monthToDateAvgCPM = pyRoundQ (rawMonthAvgCPM db t) ∧
    (getDashboardData db t).monthCPMTrend.map (fun e => e.cpm) =
      (List.range 5).map (fun j => pyRoundQ (rawTrendCPM db t j)) ∧
    (∀ e ∈ (getDashboardData db t).schoolsContribution,
      e.percentage =
        pyRound1 ((e.meals : ℚ) / (dashYesterdayMeals db t : ℚ) * 100)) ∧
    (getIndirectCostsBreakdown db y m).costPerMeal =
      pyRound2 (if 0 < icTotalMeals db y m then
          icTotalAmount db y m / (icTotalMeals db y m : ℚ)
        else 0) ∧
    (∀ d ∈ (getIndirectCostsBreakdown db y m).details,
      d.percentage =
        pyRound1 (if 0 < icTotalAmount db y m then
            d.amount / icTotalAmount db y m * 100
          else 0)) ∧
    (getCostAnalysis db y m).ingredientCPM = pyRound2 (rawIngredientCPM db y m) ∧
    (getCostAnalysis db y m).indirectCPM = pyRound2 (rawIndirectCPM db y m) ∧
    (getCostAnalysis db y m).totalCPM =
      pyRound2 (rawIngredientCPM db y m + rawIndirectCPM db y m) ∧
    ∀ e ∈ (getCostAnalysis db y m).schools,
      e.percentage =
        pyRound1 (if 0 < caTotalMeals db y m then
            (e.meals : ℚ) / (caTotalMeals db y m : ℚ) * 100
          else 0) := by
  refine ⟨rfl, rfl, by simp [getDashboardData, List.map_map], ?_, rfl, ?_, rfl,
    rfl, rfl, ?_⟩
  · intro e he
    by_cases hy : 0 < dashYesterdayMeals db t
    · have he1 : e ∈ sortDescBy (fun e2 => e2.meals) (dashContribEntries db t) := by
        have : (getDashboardData db t).schoolsContribution =
            sortDescBy (fun e2 => e2.meals) (dashContribEntries db t) := by
          show (if 0 < dashYesterdayMeals db t then _ else _) = _
          rw [if_pos hy]
        rwa [this] at he
      have he2 : e ∈ dashContribEntries db t :=
        (mem_sortDescBy (fun e2 => e2.meals) e _).mp he1
      rcases List.mem_filterMap.mp he2 with ⟨g, _, hfg⟩
      cases hsc : g.school with
      | none =>
          rw [hsc] at hfg
          simp at hfg
      | some sc =>
          rw [hsc] at hfg
          have := Option.some.inj hfg
          rw [← this]
    · have : (getDashboardData db t).schoolsContribution = [] := by
        show (if 0 < dashYesterdayMeals db t then _ else _) = _
        rw [if_neg hy]
      rw [this] at he
      exact absurd he (List.not_mem_nil e)
  · intro d hd
    have hd1 : d ∈ sortDescBy (fun d2 => d2.amount) (icDetails db y m) := hd
    have hd2 : d ∈ icDetails db y m :=
      (mem_sortDescBy (fun d2 => d2.amount) d _).mp hd1
    rcases List.mem_map.mp hd2 with ⟨g, _, rfl⟩
    rfl
  · intro e he
    have he1 : e ∈ sortDescBy (fun e2 => e2.meals) (caSchoolEntries db y m) := he
    have he2 : e ∈ caSchoolEntries db y m :=
      (mem_sortDescBy (fun e2 => e2.meals) e _).mp he1
    rcases List.mem_map.mp he2 with ⟨g, _, rfl⟩
    rfl

/-- A small populated snapshot: two schools with yesterday productions,
a purchase in the current week, and two indirect costs in 2025-03. -/
def sampleDB : ReportDB :=
  { schools := [⟨1, "A"⟩, ⟨2, "B"⟩]
    productions := [⟨1, 3, 739313⟩, ⟨2, 1, 739313⟩]
    purchases := [⟨10, 739313⟩]
    indirectCosts :=
      [⟨3, 2025, "Utilities", "water", 30, none⟩,
       ⟨3, 2025, "Salaries", "cooks", 10, some "SAL"⟩] }

/-- Witness for C5 on `sampleDB` (today 2025-03-04, month 2025-03):
membership hypotheses are discharged on computed members. -/
theorem C5_witness :
    ((⟨"A", 3, 75⟩ : SchoolContribution) ∈
        (getDashboardData sampleDB ⟨2025, 3, 4⟩).schoolsContribution ∧
      (75 : ℚ) = pyRound1 (((3 : ℤ) : ℚ) /
        ((dashYesterdayMeals sampleDB ⟨2025, 3, 4⟩ : ℤ) : ℚ) * 100)) ∧
    (getDashboardData sampleDB ⟨2025, 3, 4⟩).currentWeekCPM =
      pyRoundQ (rawCurrentWeekCPM sampleDB ⟨2025, 3, 4⟩) ∧
    (getIndirectCostsBreakdown sampleDB 2025 3).costPerMeal =
      pyRound2 (if 0 < icTotalMeals sampleDB 2025 3 then
          icTotalAmount sampleDB 2025 3 / (icTotalMeals sampleDB 2025 3 : ℚ)
        else 0) := by
  have h := C5_rounding_contract sampleDB ⟨2025, 3, 4⟩ 2025 3
  have hmem : (⟨"A", 3, 75⟩ : SchoolContribution) ∈
      (getDashboardData sampleDB ⟨2025, 3, 4⟩).schoolsContribution := by
    norm_num [getDashboardData, dashYesterdayMeals, dashYesterdayProds, prodsOnDay,
      sampleDB, toOrdinal, daysBeforeYear, daysBeforeMonth, daysInMonth, isLeap,
      List.filter_cons, sumMeals, dashContribEntries, dashContribGroups,
      bumpSchoolGroup, List.foldl_cons, List.any_cons, List.find?,
      sortDescBy, insertDescBy, pyRound1, pyRoundQ, List.range_succ]
  exact ⟨⟨hmem, h.2.2.2.1 _ hmem⟩, h.1, h.2.2.2.2.1⟩

/-- Claim C6: every contribution list (dashboard per-school breakdown,
cost-analysis per-school breakdown, indirect-cost category breakdown)
is sorted descending by its summed quantity (meals or amount), and the
elements with any given sum appear exactly as in the pre-sort grouped
list, which is in first-seen key order — i.e. the sort is stable over
first-encounter insertion order. -/
theorem C6_sorted_descending_stable (db : ReportDB) (t : PyDate) (y m : ℕ)
    (v : ℤ) (q : ℚ) :
    ((getDashboardData db t).schoolsContribution).Pairwise
      (fun a b => b.meals ≤ a.meals) ∧
    (0 < dashYesterdayMeals db t →
      ((getDashboardData db t).schoolsContribution).filter
          (fun e => decide (e.meals = v)) =
        (dashContribEntries db t).filter (fun e => decide (e.meals = v))) ∧
    ((getIndirectCostsBreakdown db y m).details).Pairwise
      (fun a b => b.amount ≤ a.amount) ∧
    ((getIndirectCostsBreakdown db y m).details).filter
        (fun d => decide (d.amount = q)) =
      (icDetails db y m).filter (fun d => decide (d.amount = q)) ∧
    ((getCostAnalysis db y m).schools).Pairwise
      (fun a b => b.meals ≤ a.meals) ∧
    ((getCostAnalysis db y m).schools).filter
        (fun e => decide (e.meals = v)) =
      (caSchoolEntries db y m).filter (fun e => decide (e.meals = v)) := by
  refine ⟨?_, ?_, ?_, ?_, ?_, ?_⟩
  · by_cases hy : 0 < dashYesterdayMeals db t
    · have : (getDashboardData db t).schoolsContribution =
          sortDescBy (fun e2 => e2.meals) (dashContribEntries db t) := by
        show (if 0 < dashYesterdayMeals db t then _ else _) = _
        rw [if_pos hy]
      rw [this]
      exact pairwise_sortDescBy (fun e2 : SchoolContribution => e2.meals)
        (dashContribEntries db t)
    · have : (getDashboardData db t).schoolsContribution = [] := by
        show (if 0 < dashYesterdayMeals db t then _ else _) = _
        rw [if_neg hy]
      rw [this]
      exact List.Pairwise.nil
  · intro hy
    have : (getDashboardData db t).schoolsContribution =
        sortDescBy (fun e2 => e2.meals) (dashContribEntries db t) := by
      show (if 0 < dashYesterdayMeals db t then _ else _) = _
      rw [if_pos hy]
    rw [this]
    exact filter_sortDescBy (fun e2 : SchoolContribution => e2.meals) v
      (dashContribEntries db t)
  · exact pairwise_sortDescBy (fun d2 => d2.amount) (icDetails db y m)
  · exact filter_sortDescBy (fun d2 => d2.amount) q (icDetails db y m)
  · exact pairwise_sortDescBy (fun e2 => e2.meals) (caSchoolEntries db y m)
  · exact filter_sortDescBy (fun e2 => e2.meals) v (caSchoolEntries db y m)

/-- Witness for C6 on `sampleDB`, discharging the positive-total
hypothesis of the dashboard stability conjunct. -/
theorem C6_witness :
    0 < dashYesterdayMeals sampleDB ⟨2025, 3, 4⟩ ∧
    ((getDashboardData sampleDB ⟨2025, 3, 4⟩).schoolsContribution).filter
        (fun e => decide (e.meals = 3)) =
      (dashContribEntries sampleDB ⟨2025, 3, 4⟩).filter
        (fun e => decide (e.meals = 3)) ∧
    ((getIndirectCostsBreakdown sampleDB 2025 3).details).Pairwise
      (fun a b => b.amount ≤ a.amount) :=
  ⟨by decide,
   (C6_sorted_descending_stable sampleDB ⟨2025, 3, 4⟩ 2025 3 3 30).2.1 (by decide),
   (C6_sorted_descending_stable sampleDB ⟨2025, 3, 4⟩ 2025 3 3 30).2.2.1⟩

/-! ### Correctness of the indirect-cost grouping fold (for C3) -/

/-- The keys of the `cost_groups` dict, in insertion order. -/
def keysOf (gs : List CostGroup) : List String := gs.map (fun g => g.key)

/-- Total amount stored under key `k` (a Python dict has each key once,
so under `keysOf`-nodup this is the single entry's amount, or 0). -/
def groupTotal (gs : List CostGroup) (k : String) : ℚ :=
  ((gs.filter (fun g => g.key == k)).map (fun g => g.amount)).sum

/-- Total amount of the records whose merge key is `k`. -/
def matchTotal (cs : List ICRow) (k : String) : ℚ :=
  ((cs.filter (fun c => icKey c == k)).map (fun c => c.amount)).sum

/-- The merge key reconstructed from the emitted `code`/`category`
fields (`code` is the record's code or `""`). -/
def detailKeyOf (code cat : String) : String :=
  if code = "" then cat else code ++ "_" ++ cat

theorem groupTotal_cons (g : CostGroup) (gs : List CostGroup) (k : String) :
    groupTotal (g :: gs) k =
      (if g.key = k then g.amount else 0) + groupTotal gs k := by
  by_cases h : g.key = k
  · simp [groupTotal, List.filter_cons, h]
  · simp [groupTotal, List.filter_cons, h]

theorem matchTotal_cons (c : ICRow) (cs : List ICRow) (k : String) :
    matchTotal (c :: cs) k =
      (if icKey c = k then c.amount else 0) + matchTotal cs k := by
  by_cases h : icKey c = k
  · simp [matchTotal, List.filter_cons, h]
  · simp [matchTotal, List.filter_cons, h]

theorem groupTotal_eq_zero (gs : List CostGroup) (k : String)
    (h : ∀ g ∈ gs, g.key ≠ k) : groupTotal gs k = 0 := by
  induction gs with
  | nil => simp [groupTotal]
  | cons g0 gs ih =>
      rw [groupTotal_cons, if_neg (h g0 (List.mem_cons_self g0 gs)), zero_add]
      exact ih fun g hg => h g (List.mem_cons_of_mem g0 hg)

theorem bumpIC_nodupKeys (acc : List CostGroup) (c : ICRow)
    (h : (keysOf acc).Nodup) : (keysOf (bumpIC acc c)).Nodup := by
  rw [bumpIC]
  by_cases hany : acc.any (fun g => g.key == icKey c)
  · rw [if_pos hany]
    have hkeys : keysOf (acc.map (fun g =>
        if g.key == icKey c then { g with amount := g.amount + c.amount }
        else g)) = keysOf acc := by
      unfold keysOf
      rw [List.map_map]
      apply List.map_congr_left
      intro g _
      by_cases h2 : g.key = icKey c
      · simp [h2]
      · simp [h2]
    rw [hkeys]
    exact h
  · rw [if_neg hany]
    have hnot : ∀ g ∈ acc, g.key ≠ icKey c := by
      intro g hg he
      exact hany (List.any_eq_true.mpr ⟨g, hg, by simp [he]⟩)
    unfold keysOf
    rw [List.map_append]
    refine List.Nodup.append h (by simp) ?_
    intro k hk1 hk2
    simp only [List.map_cons, List.map_nil, List.mem_singleton] at hk2
    rcases List.mem_map.mp hk1 with ⟨g, hg, rfl⟩
    exact hnot g hg hk2

theorem groupTotal_bumpmap (c : ICRow) (k : String) :
    ∀ acc : List CostGroup, (keysOf acc).Nodup →
      acc.any (fun g => g.key == icKey c) = true →
      groupTotal (acc.map (fun g =>
          if g.key == icKey c then { g with amount := g.amount + c.amount }
          else g)) k =
        groupTotal acc k + (if icKey c = k then c.amount else 0) := by
  intro acc
  induction acc with
  | nil =>
      intro _ hany
      simp at hany
  | cons g gs ih =>
      intro hnd hany
      have hnd2 := List.nodup_cons.mp hnd
      by_cases hg : g.key = icKey c
      · have hgs : gs.map (fun g2 =>
            if g2.key == icKey c then { g2 with amount := g2.amount + c.amount }
            else g2) = gs := by
          have hall : ∀ g2 ∈ gs, (if g2.key == icKey c then
              { g2 with amount := g2.amount + c.amount } else g2) = g2 := by
            intro g2 hg2
            have : g2.key ≠ icKey c := by
              intro he
              exact hnd2.1 (List.mem_map.mpr ⟨g2, hg2, he.trans hg.symm⟩)
            simp [this]
          calc gs.map _ = gs.map id := List.map_congr_left hall
            _ = gs := List.map_id gs
        have hbeq : (g.key == icKey c) = true := by simp [hg]
        have hhead : (if g.key == icKey c then
            { g with amount := g.amount + c.amount } else g) =
              { g with amount := g.amount + c.amount } := by
          rw [if_pos hbeq]
        rw [List.map_cons, hgs, hhead, groupTotal_cons, groupTotal_cons]
        show (if g.key = k then g.amount + c.amount else 0) + groupTotal gs k =
          (if g.key = k then g.amount else 0) + groupTotal gs k +
            (if icKey c = k then c.amount else 0)
        by_cases hk : g.key = k
        · have h2 : icKey c = k := by rw [← hg]; exact hk
          rw [if_pos hk, if_pos hk, if_pos h2]
          ring
        · have h2 : icKey c ≠ k := by rw [← hg]; exact hk
          rw [if_neg hk, if_neg hk, if_neg h2]
          ring
      · have hbeq : (g.key == icKey c) = false := by simp [hg]
        have hany2 : gs.any (fun g2 => g2.key == icKey c) = true := by
          rw [List.any_cons, hbeq, Bool.false_or] at hany
          exact hany
        rw [List.map_cons]
        have hfg : (if g.key == icKey c then
            { g with amount := g.amount + c.amount } else g) = g := by
          rw [hbeq]
          simp
        rw [hfg, groupTotal_cons, groupTotal_cons, ih hnd2.2 hany2]
        ring

theorem bumpIC_groupTotal (acc : List CostGroup) (c : ICRow) (k : String)
    (hnd : (keysOf acc).Nodup) :
    groupTotal (bumpIC acc c) k =
      groupTotal acc k + (if icKey c = k then c.amount else 0) := by
  rw [bumpIC]
  by_cases hany : acc.any (fun g => g.key == icKey c)
  · rw [if_pos hany]
    exact groupTotal_bumpmap c k acc hnd hany
  · rw [if_neg hany]
    unfold groupTotal
    rw [List.filter_append]
    by_cases h : icKey c = k
    · simp [List.filter_cons, h]
    · simp [List.filter_cons, h]

theorem foldl_bumpIC_invariant (cs : List ICRow) :
    ∀ acc : List CostGroup, (keysOf acc).Nodup →
      (keysOf (cs.foldl bumpIC acc)).Nodup ∧
      ∀ k, groupTotal (cs.foldl bumpIC acc) k =
        groupTotal acc k + matchTotal cs k := by
  induction cs with
  | nil =>
      intro acc h
      refine ⟨h, fun k => ?_⟩
      simp [matchTotal]
  | cons c cs ih =>
      intro acc h
      obtain ⟨hn, ht⟩ := ih (bumpIC acc c) (bumpIC_nodupKeys acc c h)
      refine ⟨hn, fun k => ?_⟩
      rw [List.foldl_cons, ht k, bumpIC_groupTotal acc c k h, matchTotal_cons]
      ring

theorem groupTotal_of_mem (gs : List CostGroup) (g : CostGroup)
    (hnd : (keysOf gs).Nodup) (hg : g ∈ gs) :
    groupTotal gs g.key = g.amount := by
  induction gs with
  | nil => cases hg
  | cons g0 gs ih =>
      have hnd2 := List.nodup_cons.mp hnd
      rw [groupTotal_cons]
      rcases List.mem_cons.mp hg with rfl | hmem
      · rw [if_pos rfl, groupTotal_eq_zero gs g.key ?_, add_zero]
        intro g2 hg2 he
        exact hnd2.1 (List.mem_map.mpr ⟨g2, hg2, he⟩)
      · have hne : g0.key ≠ g.key := by
          intro he
          exact hnd2.1 (List.mem_map.mpr ⟨g, hmem, he.symm⟩)
        rw [if_neg hne, ih hnd2.2 hmem, zero_add]

theorem bumpIC_key_inv (acc : List CostGroup) (c : ICRow)
    (h : ∀ g ∈ acc, g.key = detailKeyOf g.code g.category) :
    ∀ g ∈ bumpIC acc c, g.key = detailKeyOf g.code g.category := by
  rw [bumpIC]
  by_cases hany : acc.any (fun g => g.key == icKey c)
  · rw [if_pos hany]
    intro g hg
    rcases List.mem_map.mp hg with ⟨g0, hg0, rfl⟩
    by_cases hb : (g0.key == icKey c) = true
    · rw [if_pos hb]
      show g0.key = detailKeyOf g0.code g0.category
      exact h g0 hg0
    · rw [if_neg hb]
      exact h g0 hg0
  · rw [if_neg hany]
    intro g hg
    rcases List.mem_append.mp hg with hin | hin
    · exact h g hin
    · rcases List.mem_singleton.mp hin with rfl
      show icKey c = detailKeyOf (codeOrEmpty c) c.category
      unfold icKey codeOrEmpty detailKeyOf
      cases c.code with
      | none => simp
      | some s =>
          by_cases hs : s = ""
          · simp [hs]
          · simp [hs]

theorem foldl_bumpIC_key_inv (cs : List ICRow) :
    ∀ acc : List CostGroup,
      (∀ g ∈ acc, g.key = detailKeyOf g.code g.category) →
      ∀ g ∈ cs.foldl bumpIC acc, g.key = detailKeyOf g.code g.category := by
  induction cs with
  | nil => intro acc h; exact h
  | cons c cs ih =>
      intro acc h
      rw [List.foldl_cons]
      exact ih (bumpIC acc c) (bumpIC_key_inv acc c h)

/-- Claim C3 (amended): the indirect-cost breakdown for `(year, month)`
merges records by the key "`code` *concatenated with* `category`
(`code_category`) when a truthy code is present, else `category`"; each
emitted group's amount is the sum of the amounts of exactly the records
with its merge key, its percentage is the 1-dp rounding of its share of
the whole-month total amount, and the month cost-per-meal is computed
against total Production meals of the month.  As stated — with merge
key "`code` if present, else `category`" — the claim fails (see the
counterexample): records sharing a code but differing in category are
not merged. -/
theorem C3_breakdown_grouping (db : ReportDB) (y m : ℕ) :
    (getIndirectCostsBreakdown db y m).totalAmount =
      sumAmounts (icsForMonth db y m) ∧
    (getIndirectCostsBreakdown db y m).totalMeals =
      sumMeals (prodsInRange db (monthStartOrdOf y m) (monthEndOrdOf y m)) ∧
    (getIndirectCostsBreakdown db y m).costPerMeal =
      pyRound2 (if 0 < icTotalMeals db y m then
          icTotalAmount db y m / (icTotalMeals db y m : ℚ)
        else 0) ∧
    (∀ d ∈ (getIndirectCostsBreakdown db y m).details,
      d.amount = matchTotal (icsForMonth db y m) (detailKeyOf d.code d.category)) ∧
    (∀ d ∈ (getIndirectCostsBreakdown db y m).details,
      d.percentage = pyRound1 (if 0 < icTotalAmount db y m then
          d.amount / icTotalAmount db y m * 100
        else 0)) := by
  have hbase := foldl_bumpIC_invariant (icsForMonth db y m) [] (by simp [keysOf])
  refine ⟨rfl, rfl, rfl, ?_, ?_⟩
  · intro d hd
    have hd1 : d ∈ sortDescBy (fun d2 => d2.amount) (icDetails db y m) := hd
    have hd2 : d ∈ icDetails db y m :=
      (mem_sortDescBy (fun d2 => d2.amount) d _).mp hd1
    rcases List.mem_map.mp hd2 with ⟨g, hg, rfl⟩
    show g.amount = matchTotal (icsForMonth db y m) (detailKeyOf g.code g.category)
    have hkey : g.key = detailKeyOf g.code g.category :=
      foldl_bumpIC_key_inv (icsForMonth db y m) [] (by simp) g hg
    rw [← hkey, ← groupTotal_of_mem (icGroups db y m) g hbase.1 hg]
    have := hbase.2 g.key
    rw [show groupTotal [] g.key = 0 from by simp [groupTotal], zero_add] at this
    exact this
  · intro d hd
    have hd1 : d ∈ sortDescBy (fun d2 => d2.amount) (icDetails db y m) := hd
    have hd2 : d ∈ icDetails db y m :=
      (mem_sortDescBy (fun d2 => d2.amount) d _).mp hd1
    rcases List.mem_map.mp hd2 with ⟨g, _, rfl⟩
    rfl

/-- Modelled from the spec sentence for the counterexample: the claimed
merge key, "`code` if present else `category`". -/
def specICMergeKey (c : ICRow) : String :=
  match c.code with
  | some s => s
  | none => c.category

/-- Two records with the same code `"A"` but different categories. -/
def dbC3 : ReportDB :=
  { schools := []
    productions := []
    purchases := []
    indirectCosts :=
      [⟨3, 2025, "X", "d1", 1, some "A"⟩, ⟨3, 2025, "Y", "d2", 2, some "A"⟩] }

/-- Counterexample to C3 as stated: merging by "`code` if present, else
`category`" can produce at most one group per distinct spec key — here
both records have spec key `"A"`, so one merged group — but the code
keys on `code_category` and emits two groups. -/
theorem C3_counterexample :
    ¬ ((getIndirectCostsBreakdown dbC3 2025 3).details.length ≤
        (((icsForMonth dbC3 2025 3).map specICMergeKey).dedup).length) := by
  norm_num [getIndirectCostsBreakdown, icDetails, icGroups, icsForMonth, bumpIC,
    icKey, codeOrEmpty, icTotalAmount, sumAmounts, dbC3, List.filter_cons,
    List.foldl_cons, List.any_cons, sortDescBy, insertDescBy, specICMergeKey,
    List.dedup_cons_of_mem, List.dedup_cons_of_not_mem, pyRound1, pyRoundQ]

/-- Witness for C3 (amended) on `sampleDB`: the `"Utilities"` group
(code absent) sums to 30 and carries percentage 75.0 of the 40 total. -/
theorem C3_witness :
    ((⟨"", "Utilities", "water", 30, 75⟩ : ICDetail) ∈
        (getIndirectCostsBreakdown sampleDB 2025 3).details) ∧
    (⟨"", "Utilities", "water", 30, 75⟩ : ICDetail).amount =
      matchTotal (icsForMonth sampleDB 2025 3) (detailKeyOf "" "Utilities") ∧
    (⟨"", "Utilities", "water", 30, 75⟩ : ICDetail).percentage =
      pyRound1 (if 0 < icTotalAmount sampleDB 2025 3 then
          (⟨"", "Utilities", "water", 30, 75⟩ : ICDetail).amount /
            icTotalAmount sampleDB 2025 3 * 100
        else 0) := by
  have hmem : (⟨"", "Utilities", "water", 30, 75⟩ : ICDetail) ∈
      (getIndirectCostsBreakdown sampleDB 2025 3).details := by
    norm_num [getIndirectCostsBreakdown, icDetails, icGroups, icsForMonth, bumpIC,
      icKey, codeOrEmpty, icTotalAmount, sumAmounts, sampleDB, List.filter_cons,
      List.foldl_cons, List.any_cons, sortDescBy, insertDescBy, pyRound1, pyRoundQ]
  have h := C3_breakdown_grouping sampleDB 2025 3
  exact ⟨hmem, h.2.2.2.1 _ hmem, h.2.2.2.2 _ hmem⟩

/-! ### Sanity checks pinning the embedding to CPython behaviour -/

theorem toOrdinal_matches_cpython :
    toOrdinal ⟨2025, 3, 3⟩ = 739313 ∧ pyWeekday ⟨2025, 3, 3⟩ = 0 := by decide

theorem isoCalendar_matches_cpython :
    isoCalendar ⟨2024, 12, 30⟩ = (2025, 1) ∧
    isoCalendar ⟨2025, 1, 1⟩ = (2025, 1) ∧
    isoCalendar ⟨2025, 3, 3⟩ = (2025, 10) ∧
    isoCalendar ⟨2023, 1, 1⟩ = (2022, 52) ∧
    isoCalendar ⟨2020, 12, 31⟩ = (2020, 53) ∧
    isoCalendar ⟨2021, 1, 1⟩ = (2020, 53) := by decide

theorem pyRoundQ_matches_cpython :
    pyRoundQ (5/2) = 2 ∧ pyRoundQ (7/2) = 4 ∧ pyRoundQ (-5/2) = -2 := by
  norm_num [pyRoundQ]
